import Mathlib

/-
Verification of the RusTCP repository: a shallow embedding of the TCP
connection engine in src/RusTCP/src/tcp.rs and of the demultiplexing loop in
src/RusTCP/src/main.rs, with theorems settling the frozen claims about the
natural-language specification.

Embedding conventions:
- Rust u32 and u16 values are Nat; where the source performs arithmetic that
  can overflow, the embedding reduces modulo 2^32 (release-profile wrapping
  semantics of the machine integer).
- The etherparse header slices and header builders are collaborator code that
  is not part of this repository; the fields the engine reads and writes are
  embedded as plain structures, and the checksum routine is modelled from the
  specification (section 4.4).
- Fallible operations return Option or are paired with an Except value.
- The source file is an early snapshot with naming slips (it writes tcph,
  syn_ack, c, ip_header, p and protocol where the surrounding code declares
  tcp_header, connection.tcp, connection, ipv4_header, ipv4_header and proto);
  each such occurrence is embedded as the unique declared value it can refer
  to. main.rs declares the table as a map from Quad to tcp::State yet inserts
  Connection values into it; the embedding uses the only consistent reading, a
  map from Quad to Connection.
-/

namespace RusTCP

/-- The modulus of 32-bit sequence-number arithmetic. -/
def u32Mod : Nat := 4294967296

/-- Half of the sequence-number circle, 2 to the 31. -/
def half32 : Nat := 2147483648

/-- Modelled from the spec: the wrapping distance (b - a) modulo 2 to the 32,
the distance operation of section 4.1, which is absent from the source files. -/
def wrappingSub (b a : Nat) : Nat := (b + (u32Mod - a % u32Mod)) % u32Mod

/-- Modelled from the spec: the wraparound convention of section 4.1, a is
before b iff (b - a) modulo 2 to the 32 lies in the open interval from 0 to
2 to the 31. -/
def seqBefore (a b : Nat) : Bool :=
  decide (0 < wrappingSub b a) && decide (wrappingSub b a < half32)

/-- Modelled from the spec: is_between_wrapped of section 4.1, absent from the
source files; x lies strictly between start and e going forward around the
circle, with both comparisons taken under the wraparound convention. -/
def is_between_wrapped (start x e : Nat) : Bool :=
  seqBefore start x && seqBefore x e

/-- Modelled from the spec: membership of a sequence number in the receive
window from recv.nxt (inclusive) to recv.nxt plus recv.wnd (exclusive), under
wraparound comparison (sections 4.2 and 8). -/
def inRcvWindow (nxt wnd seq : Nat) : Bool :=
  decide (wrappingSub seq nxt < wnd)

/-- TCP states of the source enum State (tcp.rs lines 84 to 89). -/
inductive State
  | Closed
  | Listen
  | SynRcvd
  | Estab
deriving DecidableEq

/-- SendSequenceSpace of tcp.rs lines 101 to 118. -/
structure SendSequenceSpace where
  una : Nat
  nxt : Nat
  wnd : Nat
  up : Bool
  wl1 : Nat
  wl2 : Nat
  iss : Nat
deriving DecidableEq

/-- RecvSequenceSpace of tcp.rs lines 120 to 129. -/
structure RecvSequenceSpace where
  nxt : Nat
  wnd : Nat
  up : Bool
  irs : Nat
deriving DecidableEq

/-- The fields of an etherparse Ipv4HeaderSlice that the engine reads:
the source and destination addresses, each four octets. -/
structure Ipv4HeaderSlice where
  source : Nat × Nat × Nat × Nat
  destination : Nat × Nat × Nat × Nat
deriving DecidableEq

/-- The fields of an etherparse TcpHeaderSlice that the engine reads. -/
structure TcpHeaderSlice where
  source_port : Nat
  destination_port : Nat
  sequence_number : Nat
  acknowledgment_number : Nat
  window_size : Nat
  syn : Bool
  ack : Bool
  rst : Bool
  fin : Bool
deriving DecidableEq

/-- The fields of an outgoing etherparse Ipv4Header that the engine sets
(tcp.rs lines 207 to 223 and 230). -/
structure Ipv4Header where
  payload_len : Nat
  time_to_live : Nat
  protocol : Nat
  source : Nat × Nat × Nat × Nat
  destination : Nat × Nat × Nat × Nat
deriving DecidableEq

/-- The fields of an outgoing etherparse TcpHeader that the engine sets
(tcp.rs lines 201 to 235). -/
structure TcpHeader where
  source_port : Nat
  destination_port : Nat
  sequence_number : Nat
  acknowledgment_number : Nat
  window_size : Nat
  syn : Bool
  ack : Bool
  rst : Bool
  fin : Bool
  checksum : Nat
deriving DecidableEq

/-- Connection of tcp.rs lines 91 to 99. -/
structure Connection where
  state : State
  send : SendSequenceSpace
  recv : RecvSequenceSpace
  ip : Ipv4Header
  tcp : TcpHeader
deriving DecidableEq

/-- The engine builds headers without TCP options, so the TCP header length is
the fixed 20 bytes that etherparse reports for an option-free header. -/
def TcpHeader.header_len (_t : TcpHeader) : Nat := 20

/-- One step of the end-around carry: fold the bits above 16 back in. -/
def fold16 (s : Nat) : Nat := s % 65536 + s / 65536

/-- The 16-bit internet checksum of a list of 16-bit words: the end-around
carry sum, complemented. -/
def checksumOfWords (ws : List Nat) : Nat :=
  65535 - fold16 (fold16 (fold16 (List.sum ws)))

/-- The data offset and flag word of a serialized option-free TCP header:
offset 5 in the top four bits, then the control flags the engine can set (the
push, urgent, ece and cwr flags are never set by the engine and contribute
zero). -/
def flagsWord (t : TcpHeader) : Nat :=
  5 * 4096
    + (if t.fin then 1 else 0)
    + (if t.syn then 2 else 0)
    + (if t.rst then 4 else 0)
    + (if t.ack then 16 else 0)

/-- A four-octet address as the two 16-bit words of its serialization. -/
def addrWords : Nat × Nat × Nat × Nat → List Nat
  | (b0, b1, b2, b3) => [b0 * 256 + b1, b2 * 256 + b3]

/-- The 16-bit words of a serialized option-free TCP header, with the checksum
field taken as zero and the urgent pointer zero. -/
def TcpHeader.words (t : TcpHeader) : List Nat :=
  [t.source_port, t.destination_port,
   t.sequence_number / 65536, t.sequence_number % 65536,
   t.acknowledgment_number / 65536, t.acknowledgment_number % 65536,
   flagsWord t, t.window_size, 0, 0]

/-- Payload octets paired into 16-bit words, an odd trailing octet padded with
a zero byte. -/
def bytesToWords : List Nat → List Nat
  | [] => []
  | [b0] => [b0 * 256]
  | b0 :: b1 :: rest => (b0 * 256 + b1) :: bytesToWords rest

/-- The 16-bit words of the IPv4 pseudo-header: source address, destination
address, the protocol number, and the TCP length. -/
def pseudoHeaderWords (ip : Ipv4Header) (tcpLen : Nat) : List Nat :=
  addrWords ip.source ++ addrWords ip.destination ++ [ip.protocol, tcpLen]

/-- Modelled from the spec: the checksum computation of section 4.4, performed
in the source by the collaborator routine calc_checksum_ipv4 of etherparse
(tcp.rs lines 233 to 235): the internet checksum over the IPv4 pseudo-header,
the TCP header with a zeroed checksum field, and the payload. -/
def calc_checksum_ipv4 (t : TcpHeader) (ip : Ipv4Header) (payload : List Nat) : Nat :=
  checksumOfWords
    (pseudoHeaderWords ip (TcpHeader.header_len t + payload.length)
      ++ TcpHeader.words t ++ bytesToWords payload)

/-- The connection built by Connection::accept on a SYN segment, tcp.rs lines
177 to 235: iss is the literal 0 and the local window the literal 10 (lines
177 to 178); the send space is built with una = iss, nxt = 1 (line 184); the
receive space takes irs from the incoming sequence number, nxt one past it
(wrapping), and the window from the incoming window field (lines 190 to 198);
the outgoing TCP header swaps the ports and carries sequence number iss and
window 10 (lines 201 to 206), then receives ack number recv.nxt and the SYN
and ACK flags (lines 226 to 228); the outgoing IPv4 header has time to live
64, protocol 6, swapped addresses (lines 207 to 223), and payload length set
to the TCP header length (line 230); finally the checksum is computed over the
pseudo-header with empty payload (lines 233 to 235). -/
def acceptConn (iph : Ipv4HeaderSlice) (tcph : TcpHeaderSlice) : Connection :=
  let iss := 0
  let wnd := 10
  let recvSpace : RecvSequenceSpace :=
    { irs := tcph.sequence_number
      nxt := (tcph.sequence_number + 1) % u32Mod
      wnd := tcph.window_size
      up := false }
  let tcpNew : TcpHeader :=
    { source_port := tcph.destination_port
      destination_port := tcph.source_port
      sequence_number := iss
      acknowledgment_number := 0
      window_size := wnd
      syn := false
      ack := false
      rst := false
      fin := false
      checksum := 0 }
  let tcpSynAck : TcpHeader :=
    { tcpNew with
        acknowledgment_number := recvSpace.nxt
        syn := true
        ack := true }
  let ipOut : Ipv4Header :=
    { payload_len := TcpHeader.header_len tcpSynAck + 0
      time_to_live := 64
      protocol := 6
      source := iph.destination
      destination := iph.source }
  { state := State.SynRcvd
    send :=
      { iss := iss
        una := iss
        nxt := 1
        wnd := wnd
        up := false
        wl1 := 0
        wl2 := 0 }
    recv := recvSpace
    ip := ipOut
    tcp := { tcpSynAck with checksum := calc_checksum_ipv4 tcpSynAck ipOut [] } }

/-- Connection::accept, tcp.rs lines 166 to 249: segments without the SYN flag
are ignored (lines 173 to 176); on a SYN the connection is built, its two
headers are serialized and handed to the interface in one send call (lines 239
to 247), and the connection is returned. The result pairs the connection with
the list of transmitted segments, each a pair of the IPv4 and TCP headers
written to the wire. -/
def accept (iph : Ipv4HeaderSlice) (tcph : TcpHeaderSlice) (_payload : List Nat) :
    Option (Connection × List (Ipv4Header × TcpHeader)) :=
  if !tcph.syn then
    none
  else
    let c := acceptConn iph tcph
    some (c, [(c.ip, c.tcp)])

/-- The error type of the io::Result returned by Connection::on_packet. -/
inductive IoError
  | generic
deriving DecidableEq

/-- Connection::on_packet, tcp.rs lines 252 to 261: the body is the single
expression Ok(()); the connection is not modified and nothing is transmitted.
The result pairs the unchanged connection and the (empty) list of transmitted
segments with the io::Result value. -/
def on_packet (c : Connection) (_iph : Ipv4HeaderSlice) (_tcph : TcpHeaderSlice)
    (_payload : List Nat) :
    (Connection × List (Ipv4Header × TcpHeader)) × Except IoError Unit :=
  ((c, []), Except.ok ())

/-- Quad of main.rs lines 10 to 13: source socket and destination socket, each
an address and a port. -/
structure Quad where
  src : (Nat × Nat × Nat × Nat) × Nat
  dst : (Nat × Nat × Nat × Nat) × Nat
deriving DecidableEq

/-- The quad main.rs builds from a parsed segment (lines 83 to 86). -/
def quadOf (iph : Ipv4HeaderSlice) (tcph : TcpHeaderSlice) : Quad :=
  { src := (iph.source, tcph.source_port)
    dst := (iph.destination, tcph.destination_port) }

/-- Lookup in the connection table, the read half of HashMap::entry. -/
def lookupConn : List (Quad × Connection) → Quad → Option Connection
  | [], _ => none
  | (q, c) :: rest, qq => if q = qq then some c else lookupConn rest qq

/-- Replacement of an existing entry, the write-back through an occupied
HashMap entry. -/
def updateConn : List (Quad × Connection) → Quad → Connection → List (Quad × Connection)
  | [], _, _ => []
  | (q, c) :: rest, qq, cc =>
      if q = qq then (q, cc) :: rest else (q, c) :: updateConn rest qq cc

/-- The per-segment dispatch of the main loop, main.rs lines 83 to 97: an
occupied entry forwards to Connection::on_packet and keeps the (unchanged)
connection; a vacant entry tries Connection::accept and inserts only a
returned connection. No branch ever removes an entry. The result pairs the new
table with the transmitted segments. -/
def handleSegment (tbl : List (Quad × Connection)) (iph : Ipv4HeaderSlice)
    (tcph : TcpHeaderSlice) (payload : List Nat) :
    List (Quad × Connection) × List (Ipv4Header × TcpHeader) :=
  let q := quadOf iph tcph
  match lookupConn tbl q with
  | some c =>
      let r := on_packet c iph tcph payload
      (updateConn tbl q r.1.1, r.1.2)
  | none =>
      match accept iph tcph payload with
      | some (c, outs) => ((q, c) :: tbl, outs)
      | none => (tbl, [])

/-- A concrete IPv4 header slice used to evaluate the engine. -/
def iph0 : Ipv4HeaderSlice :=
  { source := (192, 168, 0, 2), destination := (192, 168, 0, 1) }

/-- A concrete bare SYN segment with sequence number 100 and window 1024. -/
def synSeg0 : TcpHeaderSlice :=
  { source_port := 40000
    destination_port := 80
    sequence_number := 100
    acknowledgment_number := 0
    window_size := 1024
    syn := true
    ack := false
    rst := false
    fin := false }

/-- A second concrete bare SYN, differing from synSeg0 in sequence number. -/
def synSeg1 : TcpHeaderSlice := { synSeg0 with sequence_number := 200 }

/-- A concrete segment with both SYN and ACK set. -/
def synAckSeg0 : TcpHeaderSlice :=
  { synSeg0 with ack := true, acknowledgment_number := 77 }

/-- A concrete segment with the SYN flag clear. -/
def nonSynSeg0 : TcpHeaderSlice := { synSeg0 with syn := false, ack := true }

/-- The handshake-completing ACK for the connection accepted from synSeg0:
acknowledgment number 1, which is iss plus 1. -/
def ackSeg0 : TcpHeaderSlice :=
  { synSeg0 with
      syn := false
      ack := true
      acknowledgment_number := 1
      sequence_number := 101 }

/-- A segment whose sequence number 5000 lies outside the receive window of
the connection accepted from synSeg0 (the window is 101 to 1124). -/
def oowSeg0 : TcpHeaderSlice :=
  { synSeg0 with
      syn := false
      ack := true
      acknowledgment_number := 1
      sequence_number := 5000 }

/-- A segment with the RST flag set, addressed to the connection accepted
from synSeg0. -/
def rstSeg0 : TcpHeaderSlice :=
  { synSeg0 with syn := false, rst := true, sequence_number := 101 }

/-- A bare SYN carrying the largest 32-bit sequence number. -/
def maxSeqSyn : TcpHeaderSlice := { synSeg0 with sequence_number := 4294967295 }

/-- The connection accepted from synSeg0. -/
def acceptedConn0 : Connection := acceptConn iph0 synSeg0

/-- The connection accepted from synSeg1. -/
def acceptedConn1 : Connection := acceptConn iph0 synSeg1

/-- The quad of the synSeg0 connection. -/
def quad0 : Quad := quadOf iph0 synSeg0

/-- A one-entry connection table holding the synSeg0 connection. -/
def tbl0 : List (Quad × Connection) := [(quad0, acceptedConn0)]

/-- On a segment whose SYN flag is set, accept returns the built connection
together with the single transmitted segment, the pair of the headers it
serializes. -/
theorem accept_of_syn (iph : Ipv4HeaderSlice) (tcph : TcpHeaderSlice)
    (payload : List Nat) (h : tcph.syn = true) :
    accept iph tcph payload
      = some (acceptConn iph tcph,
              [((acceptConn iph tcph).ip, (acceptConn iph tcph).tcp)]) := by
  unfold accept
  rw [h]
  rfl

/-- Claim C1: for every incoming segment with the SYN flag set (and no
existing table entry, so accept is the handler), a successful accept emits
exactly one outbound segment, whose TCP header has both SYN and ACK flags
set, sequence number equal to iss, acknowledgment number equal to recv.nxt,
which is the incoming sequence number plus 1 reduced modulo 2 to the 32, and
a checksum computed over the IPv4 pseudo-header plus the segment. -/
theorem accept_emits_synack (iph : Ipv4HeaderSlice) (tcph : TcpHeaderSlice)
    (payload : List Nat) (h : tcph.syn = true) :
    ∃ c seg, accept iph tcph payload = some (c, [seg]) ∧
      seg.2.syn = true ∧
      seg.2.ack = true ∧
      seg.2.sequence_number = c.send.iss ∧
      seg.2.acknowledgment_number = c.recv.nxt ∧
      c.recv.nxt = (tcph.sequence_number + 1) % u32Mod ∧
      seg.2.checksum = calc_checksum_ipv4 seg.2 seg.1 [] :=
  ⟨_, _, accept_of_syn iph tcph payload h, rfl, rfl, rfl, rfl, rfl, rfl⟩

/-- Witness for claim C1 at the concrete SYN synSeg0. -/
theorem accept_emits_synack_witness :
    ∃ c seg, accept iph0 synSeg0 [] = some (c, [seg]) ∧
      seg.2.syn = true ∧
      seg.2.ack = true ∧
      seg.2.sequence_number = c.send.iss ∧
      seg.2.acknowledgment_number = c.recv.nxt ∧
      c.recv.nxt = (synSeg0.sequence_number + 1) % u32Mod ∧
      seg.2.checksum = calc_checksum_ipv4 seg.2 seg.1 [] :=
  accept_emits_synack iph0 synSeg0 [] rfl

/-- Claim C2: for every incoming SYN segment that accept takes, the returned
connection has recv.irs equal to the incoming sequence number, recv.nxt equal
to the incoming sequence number plus 1 (modulo 2 to the 32), recv.wnd equal
to the incoming window field, send.una equal to iss, send.nxt equal to iss
plus 1, send.wnd the locally chosen value 10, and state SynRcvd. -/
theorem accept_sets_sequence_spaces (iph : Ipv4HeaderSlice)
    (tcph : TcpHeaderSlice) (payload : List Nat) (h : tcph.syn = true) :
    ∃ c outs, accept iph tcph payload = some (c, outs) ∧
      c.recv.irs = tcph.sequence_number ∧
      c.recv.nxt = (tcph.sequence_number + 1) % u32Mod ∧
      c.recv.wnd = tcph.window_size ∧
      c.send.una = c.send.iss ∧
      c.send.nxt = c.send.iss + 1 ∧
      c.send.wnd = 10 ∧
      c.state = State.SynRcvd :=
  ⟨_, _, accept_of_syn iph tcph payload h, rfl, rfl, rfl, rfl, rfl, rfl, rfl⟩

/-- Witness for claim C2 at the concrete SYN synSeg1. -/
theorem accept_sets_sequence_spaces_witness :
    ∃ c outs, accept iph0 synSeg1 [] = some (c, outs) ∧
      c.recv.irs = synSeg1.sequence_number ∧
      c.recv.nxt = (synSeg1.sequence_number + 1) % u32Mod ∧
      c.recv.wnd = synSeg1.window_size ∧
      c.send.una = c.send.iss ∧
      c.send.nxt = c.send.iss + 1 ∧
      c.send.wnd = 10 ∧
      c.state = State.SynRcvd :=
  accept_sets_sequence_spaces iph0 synSeg1 [] rfl

/-- Counterexample to claim C3: a segment with both SYN and ACK set is not
rejected; accept returns a connection for it, although the claim says that a
segment whose ACK flag is set yields no connection. -/
theorem accept_accepts_syn_ack :
    synAckSeg0.syn = true ∧ synAckSeg0.ack = true ∧
    (accept iph0 synAckSeg0 []).isSome = true :=
  ⟨rfl, rfl, rfl⟩

/-- Claim C3 as amended: accept returns a connection exactly when the
incoming SYN flag is set; the ACK flag is not examined. For every segment
with the SYN flag clear, accept returns no connection, and dispatching it
with no matching table entry leaves the table unchanged and transmits
nothing. -/
theorem accept_checks_only_syn (tbl : List (Quad × Connection))
    (iph : Ipv4HeaderSlice) (tcph : TcpHeaderSlice) (payload : List Nat)
    (hvac : lookupConn tbl (quadOf iph tcph) = none) :
    (accept iph tcph payload).isSome = tcph.syn ∧
    (tcph.syn = false → handleSegment tbl iph tcph payload = (tbl, [])) := by
  constructor
  · cases h : tcph.syn
    · simp [accept, h]
    · rw [accept_of_syn iph tcph payload h]
      rfl
  · intro h
    have hacc : accept iph tcph payload = none := by
      simp [accept, h]
    simp [handleSegment, hvac, hacc]

/-- Witness for claim C3 as amended: the non-SYN segment nonSynSeg0 produces
no connection, and dispatching it against the empty table changes nothing and
transmits nothing. -/
theorem accept_checks_only_syn_witness :
    (accept iph0 nonSynSeg0 []).isSome = nonSynSeg0.syn ∧
    handleSegment [] iph0 nonSynSeg0 [] = ([], []) :=
  ⟨(accept_checks_only_syn [] iph0 nonSynSeg0 [] rfl).1,
   (accept_checks_only_syn [] iph0 nonSynSeg0 [] rfl).2 rfl⟩

/-- Claim C8: the sequence-number addition performed by accept wraps silently
modulo 2 to the 32; in particular an incoming SYN with the largest 32-bit
sequence number yields recv.nxt equal to 0. -/
theorem accept_add_wraps (iph : Ipv4HeaderSlice) (tcph : TcpHeaderSlice)
    (payload : List Nat) (h : tcph.syn = true) :
    ∃ c outs, accept iph tcph payload = some (c, outs) ∧
      c.recv.nxt = (tcph.sequence_number + 1) % u32Mod ∧
      (tcph.sequence_number = u32Mod - 1 → c.recv.nxt = 0) := by
  refine ⟨_, _, accept_of_syn iph tcph payload h, rfl, ?_⟩
  intro hseq
  show (tcph.sequence_number + 1) % u32Mod = 0
  rw [hseq]
  decide

/-- Witness for claim C8: accepting a SYN whose sequence number is the
largest 32-bit value produces recv.nxt equal to 0, without failure. -/
theorem accept_add_wraps_witness :
    ∃ c outs, accept iph0 maxSeqSyn [] = some (c, outs) ∧ c.recv.nxt = 0 := by
  obtain ⟨c, outs, h1, _, h3⟩ := accept_add_wraps iph0 maxSeqSyn [] rfl
  exact ⟨c, outs, h1, h3 rfl⟩

/-- Counterexample to claim C5: at a equal 0 and k equal 1, the pair lies in
the range the claim quantifies over (0 below k below 2 to the 31), yet
is_between_wrapped a (a plus 1) (a plus k) is false, because x coincides with
the end point and betweenness is strict. -/
theorem is_between_wrapped_k_one :
    0 < 1 ∧ 1 < half32 ∧
    is_between_wrapped 0 ((0 + 1) % u32Mod) ((0 + 1) % u32Mod) = false := by
  refine ⟨Nat.one_pos, by decide, by decide⟩

/-- Claim C5 as amended: for all 32-bit a and all k with 1 below k below 2 to
the 31, is_between_wrapped a (a plus 1) (a plus k) holds, the additions taken
modulo 2 to the 32; at k equal 1 the law fails because the middle point
coincides with the end point. -/
theorem is_between_wrapped_add (a k : Nat) (ha : a < u32Mod) (hk1 : 1 < k)
    (hk2 : k < half32) :
    is_between_wrapped a ((a + 1) % u32Mod) ((a + k) % u32Mod) = true := by
  simp only [is_between_wrapped, seqBefore, wrappingSub, Bool.and_eq_true,
    decide_eq_true_eq]
  simp only [u32Mod, half32] at ha hk2 ⊢
  omega

/-- Witness for claim C5 as amended, at the largest 32-bit a and k equal 2,
where both additions wrap past 2 to the 32. -/
theorem is_between_wrapped_add_witness :
    is_between_wrapped 4294967295 ((4294967295 + 1) % u32Mod)
      ((4294967295 + 2) % u32Mod) = true :=
  is_between_wrapped_add 4294967295 2 (by decide) (by decide) (by decide)

/-- Claim C4, evidence of the divergence: the connection accepted from
synSeg0 is in state SynRcvd, the inbound segment ackSeg0 has the ACK flag set
and its acknowledgment number 1 satisfies send.una below it and it at most
send.nxt, yet Connection::on_packet returns the connection unchanged, still
in SynRcvd and not in Estab, with no transmitted segment. -/
theorem on_packet_ignores_handshake_ack :
    acceptedConn0.state = State.SynRcvd ∧
    ackSeg0.ack = true ∧
    acceptedConn0.send.una < ackSeg0.acknowledgment_number ∧
    ackSeg0.acknowledgment_number ≤ acceptedConn0.send.nxt ∧
    on_packet acceptedConn0 iph0 ackSeg0 []
      = ((acceptedConn0, []), Except.ok ()) ∧
    (on_packet acceptedConn0 iph0 ackSeg0 []).1.1.state ≠ State.Estab :=
  ⟨rfl, rfl, by decide, by decide, rfl, by decide⟩

/-- Claim C6, evidence of the divergence: the sequence number of oowSeg0 lies
outside the receive window of the connection accepted from synSeg0; the code
indeed leaves the connection (hence recv.nxt and the state) unchanged and
returns success, but it transmits nothing, so no duplicate ACK is emitted. -/
theorem on_packet_out_of_window_no_ack :
    inRcvWindow acceptedConn0.recv.nxt acceptedConn0.recv.wnd
      oowSeg0.sequence_number = false ∧
    on_packet acceptedConn0 iph0 oowSeg0 []
      = ((acceptedConn0, []), Except.ok ()) :=
  ⟨by decide, rfl⟩

/-- Claim C7, evidence of the divergence: rstSeg0 has the RST flag set and
the connection accepted from synSeg0 is in SynRcvd, neither Closed nor
Listen; yet dispatching the segment through the main loop leaves the table
unchanged, the entry is still present with the same connection, nothing is
transmitted, and on_packet reports plain success rather than a reset
outcome. -/
theorem handle_rst_no_close :
    rstSeg0.rst = true ∧
    acceptedConn0.state = State.SynRcvd ∧
    handleSegment tbl0 iph0 rstSeg0 [] = (tbl0, []) ∧
    lookupConn (handleSegment tbl0 iph0 rstSeg0 []).1 (quadOf iph0 rstSeg0)
      = some acceptedConn0 ∧
    (on_packet acceptedConn0 iph0 rstSeg0 []).2 = Except.ok () :=
  ⟨rfl, rfl, by decide, by decide, rfl⟩

/-- Claim C9, evidence of the divergence: the code assigns the fixed constant
0 as iss; the connections accepted from the two distinct SYNs synSeg0 and
synSeg1 both carry iss equal 0, so no pair of accepted connections ever
differs in iss. -/
theorem iss_fixed_zero :
    synSeg0.sequence_number ≠ synSeg1.sequence_number ∧
    acceptedConn0.send.iss = 0 ∧
    acceptedConn1.send.iss = 0 :=
  ⟨by decide, rfl, rfl⟩

/-- Claim C10: for every inbound segment delivered to an existing connection,
in every state and with every combination of flags, payload and sequence
numbers, Connection::on_packet returns success, leaves every field of the
connection unchanged, and transmits no segment. -/
theorem on_packet_frame (c : Connection) (iph : Ipv4HeaderSlice)
    (tcph : TcpHeaderSlice) (payload : List Nat) :
    on_packet c iph tcph payload = ((c, []), Except.ok ()) :=
  rfl

/-- Witness for claim C10 at a concrete connection and segment. -/
theorem on_packet_frame_witness :
    on_packet acceptedConn1 iph0 synAckSeg0 []
      = ((acceptedConn1, []), Except.ok ()) :=
  on_packet_frame acceptedConn1 iph0 synAckSeg0 []

end RusTCP
